import Mathlib

/-!
Shallow embedding of `src/server.py`, a HubSpot MCP server.

The HTTP layer (`requests.get` / `requests.post` against the HubSpot API)
is modelled as a structure of response functions (`Api`): each endpoint the
code can hit is a field mapping the request parameters to the response the
server would observe (status code, body fields).  The tools themselves are
translated statement-by-statement from the Python source.  Transport-level
exceptions from the `requests` library are below this boundary and are not
modelled; the only exception the tool bodies themselves can raise is the
`ValueError` from `float()` in `get_deal_line_items`, which is modelled
explicitly with `Except`.
-/

namespace PokeServer

/-- A JSON `properties` object: an ordered list of key/value pairs with
string values, as HubSpot returns all property values as strings. -/
abbrev Props := List (String × String)

/-- `d.get(k)` on a properties object: the first value stored under `k`,
or `none` when the key is absent. -/
def propGet (p : Props) (k : String) : Option String :=
  (p.find? (fun kv => kv.1 = k)).map (fun kv => kv.2)

/-- `d.get(k, dflt)` on a properties object. -/
def propGetD (p : Props) (k dflt : String) : String :=
  (propGet p k).getD dflt

/-- One element of the `results` array of a v4 associations response;
`assoc.get("toObjectId")` may be absent, hence the `Option`. -/
abbrev AssocItem := Option String

/-- Response of one page of `GET /crm/v4/objects/{t}/{id}/associations/{cat}`:
status code, raw body text (used in error messages), the `results` array,
and the `paging.next.after` cursor when the API reports a further page. -/
structure AssocPage where
  status : Nat
  text : String
  results : List AssocItem
  nextAfter : Option String
deriving Repr, DecidableEq

/-- Response of `GET /crm/v3/objects/{t}/{id}` with a `properties` param. -/
structure RecResp where
  status : Nat
  props : Props
deriving Repr, DecidableEq

/-- One entry of `propertiesWithHistory["dealstage"]`.  The history feed
always carries these three fields, so they are modelled as present. -/
structure HistEntry where
  value : String
  timestamp : String
  sourceType : String
deriving Repr, DecidableEq

/-- Response of the single-deal fetch with `propertiesWithHistory=dealstage`.
`dealstageHistory = none` models the `"dealstage"` key being absent from
`propertiesWithHistory`. -/
structure HistResp where
  status : Nat
  text : String
  props : Props
  dealstageHistory : Option (List HistEntry)
deriving Repr, DecidableEq

/-- Response of `GET /crm/v3/properties/deals/{prop}`: status code and the
`options` array as (value, label) pairs. -/
structure PropResp where
  status : Nat
  options : List (String × String)
deriving Repr, DecidableEq

/-- The CRM API as observed by the server: every endpoint the code calls,
as a function from request parameters to the response received.
`assocPage` takes the page cursor last; the Python code never sends a
cursor, so it only ever observes `assocPage t id cat none`. -/
structure Api where
  assocPage : String → String → String → Option String → AssocPage
  record : String → String → String → RecResp
  dealWithHistory : String → HistResp
  propertyMeta : String → PropResp

/-- `f"Bearer {HUBSPOT_ACCESS_TOKEN}"`: Python string interpolation of a
possibly-`None` value renders `None` as the text `"None"`. -/
def pyStr : Option String → String
  | some s => s
  | none => "None"

/-- `get_headers()`: builds the authorization headers from the module-level
token.  There is no check that the token is present. -/
def get_headers (token : Option String) : Props :=
  [("Authorization", "Bearer " ++ pyStr token),
   ("Content-Type", "application/json")]

/-- A record appended to a tool's result list:
`{"id": ..., "properties": ...}`. -/
structure HRecord where
  id : String
  properties : Props
deriving Repr, DecidableEq

/-- Python truthiness of `assoc.get("toObjectId")`: skipped when the key is
absent or the value is empty. -/
def truthyId : AssocItem → Option String
  | some s => if s = "" then none else some s
  | none => none

/-- The per-ID hydration loop shared by the association tools: for each
association result with a truthy `toObjectId`, fetch the record with the
tool's property set `pp`; append it only when the fetch returned 200. -/
def hydrate (api : Api) (objType pp : String) (results : List AssocItem) :
    List HRecord :=
  results.filterMap (fun oid =>
    match truthyId oid with
    | some i =>
        let r := api.record objType i pp
        if r.status = 200 then some ⟨i, r.props⟩ else none
    | none => none)

/-- Result shape shared by the contacts / companies / notes / emails tools:
either `{"error": msg}`, or the empty-association shape
`{<list>: [], "message": msg}`, or `{<list>: records, "count": n}`. -/
inductive AssocResult where
  | error (msg : String)
  | empty (message : String)
  | ok (records : List HRecord) (count : Nat)
deriving Repr, DecidableEq

/-- Lexicographic comparison of character lists by Unicode code point,
the order Python uses to compare strings. -/
def listLe : List Char → List Char → Bool
  | [], _ => true
  | _ :: _, [] => false
  | c :: cs, d :: ds =>
      if c.toNat < d.toNat then true
      else if d.toNat < c.toNat then false
      else listLe cs ds

/-- Python's `<=` on strings: lexicographic by code point. -/
def pyLe (a b : String) : Bool := listLe a.toList b.toList

/-- Stable insertion step: `x` goes in front of the first element it
compares `le` to, so an element keeps its place ahead of later-arriving
ties. -/
def insertLe (le : α → α → Bool) (x : α) : List α → List α
  | [] => [x]
  | y :: ys => if le x y then x :: y :: ys else y :: insertLe le x ys

/-- Python's `list.sort` is a stable sort; for a total preorder comparison
every stable sort returns the same list, so it is modelled by stable
insertion sort. -/
def sortLe (le : α → α → Bool) : List α → List α
  | [] => []
  | x :: xs => insertLe le x (sortLe le xs)

/-- Sort key used by the notes and emails tools:
`x.get("properties", {}).get("hs_timestamp", "")`. -/
def tsKey (r : HRecord) : String :=
  propGetD r.properties "hs_timestamp" ""

/-- `list.sort(key=tsKey, reverse=True)`: a stable sort placing records
with lexicographically greater raw timestamp strings first. -/
def sortByTsDesc (l : List HRecord) : List HRecord :=
  sortLe (fun a b => pyLe (tsKey b) (tsKey a)) l

/-- Property set requested for contacts. -/
def contactProps : String := "firstname,lastname,email,phone,jobtitle,company"

/-- Property set requested for companies. -/
def companyProps : String := "name,domain,industry,numberofemployees,city,state,country"

/-- Property set requested for line items. -/
def lineItemProps : String :=
  "name,quantity,price,amount,hs_product_id,description,hs_recurring_billing_period"

/-- Property set requested for deal notes. -/
def noteProps : String := "hs_note_body,hs_timestamp,hubspot_owner_id,hs_attachment_ids"

/-- Property set requested for emails. -/
def emailProps : String :=
  "hs_email_subject,hs_email_text,hs_email_direction,hs_timestamp,hs_email_sender_email,hs_email_to_email"

/-- `get_deal_contacts`: one unpaged association call, per-ID hydration,
no sort. -/
def get_deal_contacts (api : Api) (deal_id : String) : AssocResult :=
  let page := api.assocPage "deals" deal_id "contacts" none
  if page.status ≠ 200 then
    .error ("Failed to get associations: " ++ page.text)
  else if page.results = [] then
    .empty "No contacts associated with this deal"
  else
    let contacts := hydrate api "contacts" contactProps page.results
    .ok contacts contacts.length

/-- `get_deal_companies`: same shape as `get_deal_contacts`. -/
def get_deal_companies (api : Api) (deal_id : String) : AssocResult :=
  let page := api.assocPage "deals" deal_id "companies" none
  if page.status ≠ 200 then
    .error ("Failed to get associations: " ++ page.text)
  else if page.results = [] then
    .empty "No companies associated with this deal"
  else
    let companies := hydrate api "companies" companyProps page.results
    .ok companies companies.length

/-- `get_deal_notes`: association call, hydration, then
`notes.sort(key=..., reverse=True)` on the raw `hs_timestamp` string. -/
def get_deal_notes (api : Api) (deal_id : String) : AssocResult :=
  let page := api.assocPage "deals" deal_id "notes" none
  if page.status ≠ 200 then
    .error ("Failed to get associations: " ++ page.text)
  else if page.results = [] then
    .empty "No notes associated with this deal"
  else
    let notes := sortByTsDesc (hydrate api "notes" noteProps page.results)
    .ok notes notes.length

/-- `get_deal_emails`: association call, hydration, then the same
descending raw-string timestamp sort as notes. -/
def get_deal_emails (api : Api) (deal_id : String) : AssocResult :=
  let page := api.assocPage "deals" deal_id "emails" none
  if page.status ≠ 200 then
    .error ("Failed to get associations: " ++ page.text)
  else if page.results = [] then
    .empty "No emails associated with this deal"
  else
    let emails := sortByTsDesc (hydrate api "emails" emailProps page.results)
    .ok emails emails.length

/-- The network requests a tool issues, in order. -/
inductive Request where
  | assocList (objType id category : String) (after : Option String)
  | getRecord (objType id : String)
deriving Repr, DecidableEq

/-- The ordered list of HTTP requests `get_deal_contacts` issues: first the
single association-list call (with no page cursor), then — only when that
call returned 200 — one record fetch per truthy linked ID. -/
def get_deal_contacts_requests (api : Api) (deal_id : String) : List Request :=
  let page := api.assocPage "deals" deal_id "contacts" none
  Request.assocList "deals" deal_id "contacts" none ::
    (if page.status = 200 then
      page.results.filterMap (fun oid =>
        (truthyId oid).map (fun i => Request.getRecord "contacts" i))
    else [])

/-- One row of the `stage_history` list:
`{"stage_id": ..., "timestamp": ..., "source": ...}`. -/
structure StageEvent where
  stage_id : String
  timestamp : String
  source : String
deriving Repr, DecidableEq

/-- Result shape of `get_deal_stage_history`. -/
inductive StageHistoryResult where
  | error (msg : String)
  | ok (deal_id : String) (deal_name current_stage pipeline : Option String)
      (stage_history : List StageEvent) (total_stage_changes : Nat)
deriving Repr, DecidableEq

/-- The `StageEvent` built from one history entry. -/
def mkStageEvent (e : HistEntry) : StageEvent :=
  ⟨e.value, e.timestamp, e.sourceType⟩

/-- `stage_history.sort(key=lambda x: x.get("timestamp", ""))`: stable
ascending sort on the raw timestamp string. -/
def sortByEventTsAsc (l : List StageEvent) : List StageEvent :=
  sortLe (fun a b => pyLe a.timestamp b.timestamp) l

/-- `get_deal_stage_history`: one fetch of the root deal with
`propertiesWithHistory=dealstage`, one `StageEvent` per history entry,
sorted ascending by the raw timestamp string. -/
def get_deal_stage_history (api : Api) (deal_id : String) :
    StageHistoryResult :=
  let resp := api.dealWithHistory deal_id
  if resp.status ≠ 200 then
    .error ("Failed to get deal: " ++ resp.text)
  else
    let stage_history :=
      match resp.dealstageHistory with
      | some entries => entries.map mkStageEvent
      | none => []
    let sorted := sortByEventTsAsc stage_history
    .ok deal_id (propGet resp.props "dealname") (propGet resp.props "dealstage")
      (propGet resp.props "pipeline") sorted sorted.length

/-- The two ID→label maps of `get_pipelines`. -/
structure LabelMaps where
  pipelines : List (String × String)
  stages : List (String × String)
deriving Repr, DecidableEq

/-- Result shape of `get_pipelines`.  The `error` arm mirrors the
`except` clause, which only fires on transport exceptions below the
modelled boundary; the modelled body always returns `ok`. -/
inductive LabelResult where
  | error (msg : String)
  | ok (maps : LabelMaps)
deriving Repr, DecidableEq

/-- `result["pipelines"][value] = label`: Python dict assignment — an
existing key keeps its position and gets the new value, a new key is
appended. -/
def dictSet (m : List (String × String)) (k v : String) :
    List (String × String) :=
  if m.any (fun kv => kv.1 = k) then
    m.map (fun kv => if kv.1 = k then (k, v) else kv)
  else m ++ [(k, v)]

/-- The loop `for option in data.get("options", []): result[...][value] = label`. -/
def buildLabelMap (opts : List (String × String)) : List (String × String) :=
  opts.foldl (fun m kv => dictSet m kv.1 kv.2) []

/-- `get_pipelines`: fetches the `pipeline` and `dealstage` property
options independently; each half is populated only when its own fetch
returned 200, and stays the initial `{}` otherwise. -/
def get_pipelines (api : Api) : LabelResult :=
  let p := api.propertyMeta "pipeline"
  let s := api.propertyMeta "dealstage"
  .ok { pipelines := if p.status = 200 then buildLabelMap p.options else []
      , stages := if s.status = 200 then buildLabelMap s.options else [] }

/-- Digits to their value, `"123"` ↦ 123. -/
def digitsToNat (cs : List Char) : Nat :=
  cs.foldl (fun n c => 10 * n + (c.toNat - 48)) 0

/-- Removal of leading and trailing whitespace from a character list,
Python's `str.strip()`. -/
def stripChars (cs : List Char) : List Char :=
  ((cs.dropWhile Char.isWhitespace).reverse.dropWhile Char.isWhitespace).reverse

/-- Python's `str.strip()`. -/
def pyStrip (s : String) : String := ⟨stripChars s.toList⟩

/-- The unsigned part of Python's `float()` grammar: a decimal numeral
with at most one point and at least one digit. -/
def parseUnsignedFloat (cs : List Char) : Option ℚ :=
  if cs.all (fun c => c.isDigit || c = '.')
      && (cs.filter (fun c => c = '.')).length ≤ 1
      && cs.any Char.isDigit then
    some ((digitsToNat (cs.takeWhile (fun c => c ≠ '.')) : ℚ)
      + (digitsToNat ((cs.dropWhile (fun c => c ≠ '.')).drop 1) : ℚ)
        / ((10 : ℚ) ^ ((cs.dropWhile (fun c => c ≠ '.')).drop 1).length))
  else none

/-- Python `float(s)` on a property string, modelled over ℚ: strips
whitespace, accepts an optional sign followed by a decimal numeral with at
most one point and at least one digit, and returns `none` where `float()`
raises `ValueError`.  (Exponent and inf/nan forms, which no claim touches,
are not in the model.) -/
def parseFloat (s : String) : Option ℚ :=
  match stripChars s.toList with
  | '-' :: rest => (parseUnsignedFloat rest).map (fun q => -q)
  | '+' :: rest => parseUnsignedFloat rest
  | cs => parseUnsignedFloat cs

/-- Result shape of `get_deal_line_items`. -/
inductive LineItemsResult where
  | error (msg : String)
  | empty (message : String)
  | ok (line_items : List HRecord) (count : Nat) (total_amount : ℚ)
deriving Repr, DecidableEq

/-- The hydration-plus-sum loop of `get_deal_line_items`: appends each
record fetched with status 200 and, when its `amount` property is truthy
(present and non-empty), adds `float(amount)` to the running total —
raising (the `Except.error` arm) when `float()` cannot parse it, which
discards the whole batch. -/
def lineItemsGo (api : Api) (items : List HRecord) (total : ℚ) :
    List AssocItem → Except String (List HRecord × ℚ)
  | [] => .ok (items, total)
  | oid :: rest =>
      match truthyId oid with
      | none => lineItemsGo api items total rest
      | some i =>
          let r := api.record "line_items" i lineItemProps
          if r.status = 200 then
            let items2 := items ++ [HRecord.mk i r.props]
            match propGet r.props "amount" with
            | some a =>
                if a = "" then lineItemsGo api items2 total rest
                else
                  match parseFloat a with
                  | some q => lineItemsGo api items2 (total + q) rest
                  | none =>
                      .error ("could not convert string to float: " ++ a)
            | none => lineItemsGo api items2 total rest
          else lineItemsGo api items total rest

/-- The hydrate-and-sum loop of `get_deal_line_items`, started on the
empty record list and total `0`, matching `line_items = []` and
`total_amount = 0` in the source. -/
def lineItemsScan (api : Api) (results : List AssocItem) :
    Except String (List HRecord × ℚ) :=
  lineItemsGo api [] 0 results

/-- `get_deal_line_items`: association call, then the hydrate-and-sum
loop; a `float()` failure inside the loop is caught by the tool's
`except` clause and becomes an error result. -/
def get_deal_line_items (api : Api) (deal_id : String) : LineItemsResult :=
  let page := api.assocPage "deals" deal_id "line_items" none
  if page.status ≠ 200 then
    .error ("Failed to get associations: " ++ page.text)
  else if page.results = [] then
    .empty "No line items associated with this deal"
  else
    match lineItemsScan api page.results with
    | .ok (items, total) => .ok items items.length total
    | .error e => .error e

/-- One filter object of the deals-search payload. -/
structure SearchFilter where
  propertyName : String
  operator : String
  value : String
deriving Repr, DecidableEq

/-- The deals-search request body built by `filter_deals`:
`filterGroups = none` models the key being absent from the payload. -/
structure SearchPayload where
  limit : Int
  properties : List String
  filterGroups : Option (List (List SearchFilter))
deriving Repr, DecidableEq

/-- `str(min_amount)`: rendering of a numeric argument, abstracting
Python's float formatting (its exact text matters to no claim). -/
def amountStr (q : ℚ) : String := toString q

/-- The `filters` list built by `filter_deals`: an `EQ` filter for each of
`pipeline` / `dealstage` / `hubspot_owner_id` that is not `None` and whose
stripped text is non-empty, then `GTE` / `LTE` amount filters for each
bound that is not `None`. -/
def filter_deals_filters (pipeline dealstage hubspot_owner_id : Option String)
    (min_amount max_amount : Option ℚ) : List SearchFilter :=
  (match pipeline with
   | some s => if pyStrip s ≠ "" then [⟨"pipeline", "EQ", s⟩] else []
   | none => []) ++
  (match dealstage with
   | some s => if pyStrip s ≠ "" then [⟨"dealstage", "EQ", s⟩] else []
   | none => []) ++
  (match hubspot_owner_id with
   | some s => if pyStrip s ≠ "" then [⟨"hubspot_owner_id", "EQ", s⟩] else []
   | none => []) ++
  (match min_amount with
   | some q => [⟨"amount", "GTE", amountStr q⟩]
   | none => []) ++
  (match max_amount with
   | some q => [⟨"amount", "LTE", amountStr q⟩]
   | none => [])

/-- The payload `filter_deals` posts to the deals-search endpoint: the
`filterGroups` key is added only when the filters list is non-empty. -/
def filter_deals_payload (pipeline dealstage hubspot_owner_id : Option String)
    (min_amount max_amount : Option ℚ) (limit : Int) : SearchPayload :=
  let filters :=
    filter_deals_filters pipeline dealstage hubspot_owner_id min_amount max_amount
  { limit := limit
  , properties := ["dealname", "amount", "dealstage", "pipeline", "closedate",
      "hubspot_owner_id"]
  , filterGroups := if filters = [] then none else some [filters] }

/-! ### Generic facts about the stable sort -/

theorem insertLe_perm (le : α → α → Bool) (x : α) (l : List α) :
    (insertLe le x l).Perm (x :: l) := by
  induction l with
  | nil => simp [insertLe]
  | cons y ys ih =>
      by_cases h : le x y
      · simp [insertLe, h]
      · simp only [insertLe, h]
        exact (List.Perm.cons y ih).trans (List.Perm.swap x y ys)

theorem sortLe_perm (le : α → α → Bool) (l : List α) : (sortLe le l).Perm l := by
  induction l with
  | nil => simp [sortLe]
  | cons x xs ih =>
      exact (insertLe_perm le x (sortLe le xs)).trans (List.Perm.cons x ih)

theorem mem_insertLe (le : α → α → Bool) (x z : α) (l : List α) :
    z ∈ insertLe le x l ↔ z = x ∨ z ∈ l := by
  rw [(insertLe_perm le x l).mem_iff, List.mem_cons]

theorem pairwise_insertLe (le : α → α → Bool)
    (trans : ∀ a b c, le a b = true → le b c = true → le a c = true)
    (total : ∀ a b, le a b = true ∨ le b a = true)
    (x : α) (l : List α) (h : l.Pairwise (fun a b => le a b = true)) :
    (insertLe le x l).Pairwise (fun a b => le a b = true) := by
  induction l with
  | nil => simp [insertLe]
  | cons y ys ih =>
      rcases List.pairwise_cons.mp h with ⟨hy, hys⟩
      by_cases hxy : le x y
      · simp only [insertLe, if_pos hxy]
        refine List.pairwise_cons.mpr ⟨?_, h⟩
        intro z hz
        rcases List.mem_cons.mp hz with rfl | hz
        · exact hxy
        · exact trans x y z hxy (hy z hz)
      · simp only [insertLe, if_neg hxy]
        refine List.pairwise_cons.mpr ⟨?_, ih hys⟩
        intro z hz
        rcases (mem_insertLe le x z ys).mp hz with rfl | hz
        · rcases total y z with hyx | hxy2
          · exact hyx
          · exact absurd hxy2 (by simpa using hxy)
        · exact hy z hz

theorem pairwise_sortLe (le : α → α → Bool)
    (trans : ∀ a b c, le a b = true → le b c = true → le a c = true)
    (total : ∀ a b, le a b = true ∨ le b a = true)
    (l : List α) : (sortLe le l).Pairwise (fun a b => le a b = true) := by
  induction l with
  | nil => simp [sortLe]
  | cons x xs ih => exact pairwise_insertLe le trans total x (sortLe le xs) ih

theorem length_sortLe (le : α → α → Bool) (l : List α) :
    (sortLe le l).length = l.length :=
  (sortLe_perm le l).length_eq

theorem listLe_trans : ∀ a b c : List Char,
    listLe a b = true → listLe b c = true → listLe a c = true := by
  intro a
  induction a with
  | nil => intro b c _ _; rfl
  | cons x xs ih =>
      intro b c hab hbc
      cases b with
      | nil => simp [listLe] at hab
      | cons y ys =>
          cases c with
          | nil => simp [listLe] at hbc
          | cons z zs =>
              simp only [listLe] at hab hbc ⊢
              by_cases hxy : x.toNat < y.toNat
              · have hzy : ¬ z.toNat < y.toNat ∨ y.toNat < z.toNat := by
                  by_cases hyz : y.toNat < z.toNat
                  · exact Or.inr hyz
                  · left
                    intro hzy
                    simp [hyz, hzy] at hbc
                have hxz : x.toNat < z.toNat := by
                  rcases hzy with h | h
                  · by_cases hyz : y.toNat < z.toNat
                    · omega
                    · omega
                  · omega
                simp [hxz]
              · have hyx : ¬ y.toNat < x.toNat := by
                  intro hyx
                  simp [hxy, hyx] at hab
                have hab2 : listLe xs ys = true := by simpa [hxy, hyx] using hab
                by_cases hyz : y.toNat < z.toNat
                · have hxz : x.toNat < z.toNat := by omega
                  simp [hxz]
                · have hzy : ¬ z.toNat < y.toNat := by
                    intro hzy
                    simp [hyz, hzy] at hbc
                  have hbc2 : listLe ys zs = true := by simpa [hyz, hzy] using hbc
                  have hxz : ¬ x.toNat < z.toNat := by omega
                  have hzx : ¬ z.toNat < x.toNat := by omega
                  simp [hxz, hzx, ih ys zs hab2 hbc2]

theorem listLe_total : ∀ a b : List Char,
    listLe a b = true ∨ listLe b a = true := by
  intro a
  induction a with
  | nil => intro b; left; rfl
  | cons x xs ih =>
      intro b
      cases b with
      | nil => right; rfl
      | cons y ys =>
          simp only [listLe]
          by_cases hxy : x.toNat < y.toNat
          · left; simp [hxy]
          · by_cases hyx : y.toNat < x.toNat
            · right; simp [hyx]
            · rcases ih ys with h | h
              · left; simp [hxy, hyx, h]
              · right; simp [hxy, hyx, h]

theorem pyLe_trans (a b c : String) (hab : pyLe a b = true)
    (hbc : pyLe b c = true) : pyLe a c = true :=
  listLe_trans a.toList b.toList c.toList hab hbc

theorem pyLe_total (a b : String) : pyLe a b = true ∨ pyLe b a = true :=
  listLe_total a.toList b.toList

/-- `sortByTsDesc` returns a permutation of its input on which raw
timestamp strings are pairwise non-increasing. -/
theorem sortByTsDesc_spec (l : List HRecord) :
    (sortByTsDesc l).Perm l ∧
      (sortByTsDesc l).Pairwise (fun a b => pyLe (tsKey b) (tsKey a) = true) := by
  refine ⟨sortLe_perm _ l, ?_⟩
  exact pairwise_sortLe (fun a b : HRecord => pyLe (tsKey b) (tsKey a))
    (fun a b c hab hbc => pyLe_trans _ _ _ hbc hab)
    (fun a b => pyLe_total (tsKey b) (tsKey a)) l

/-- `sortByEventTsAsc` returns a permutation of its input on which raw
timestamp strings are pairwise non-decreasing. -/
theorem sortByEventTsAsc_spec (l : List StageEvent) :
    (sortByEventTsAsc l).Perm l ∧
      (sortByEventTsAsc l).Pairwise
        (fun a b => pyLe a.timestamp b.timestamp = true) := by
  refine ⟨sortLe_perm _ l, ?_⟩
  exact pairwise_sortLe (fun a b : StageEvent => pyLe a.timestamp b.timestamp)
    (fun a b c hab hbc => pyLe_trans _ _ _ hab hbc)
    (fun a b => pyLe_total a.timestamp b.timestamp) l

/-! ### Facts about hydration -/

/-- Whether one association result leads to a successful record fetch:
its `toObjectId` is truthy and the record endpoint returns 200. -/
def fetchSucceeded (api : Api) (objType pp : String) (oid : AssocItem) : Bool :=
  match truthyId oid with
  | some i => (api.record objType i pp).status = 200
  | none => false

theorem hydrate_length_eq (api : Api) (objType pp : String)
    (results : List AssocItem) :
    (hydrate api objType pp results).length =
      results.countP (fetchSucceeded api objType pp) := by
  induction results with
  | nil => rfl
  | cons oid rest ih =>
      simp only [hydrate, List.filterMap_cons, List.countP_cons] at *
      cases h : truthyId oid with
      | none => simpa [fetchSucceeded, h] using ih
      | some i =>
          by_cases hs : (api.record objType i pp).status = 200
          · simpa [fetchSucceeded, h, hs] using ih
          · simpa [fetchSucceeded, h, hs] using ih

theorem hydrate_length_le (api : Api) (objType pp : String)
    (results : List AssocItem) :
    (hydrate api objType pp results).length ≤ results.length := by
  rw [hydrate_length_eq]
  exact List.countP_le_length _

/-! ### Facts about the line-items loop -/

/-- Whether a hydrated record's `amount` property would survive `float()`:
it is absent, empty (both falsy, hence skipped), or parses. -/
def amountOk (r : HRecord) : Bool :=
  match propGet r.properties "amount" with
  | some a => a = "" || (parseFloat a).isSome
  | none => true

/-- The contribution of one hydrated record to `total_amount`:
its parsed `amount` when that property is truthy and parses, `0`
otherwise. -/
def amountVal (r : HRecord) : ℚ :=
  match propGet r.properties "amount" with
  | some a => if a = "" then 0 else (parseFloat a).getD 0
  | none => 0

theorem lineItemsGo_ok (api : Api) (results : List AssocItem)
    (h : ∀ r ∈ hydrate api "line_items" lineItemProps results, amountOk r) :
    ∀ (items : List HRecord) (total : ℚ),
      lineItemsGo api items total results =
        .ok (items ++ hydrate api "line_items" lineItemProps results,
          total + ((hydrate api "line_items" lineItemProps results).map
            amountVal).sum) := by
  induction results with
  | nil => intro items total; simp [lineItemsGo, hydrate]
  | cons oid rest ih =>
      intro items total
      cases ht : truthyId oid with
      | none =>
          have hrest : hydrate api "line_items" lineItemProps (oid :: rest) =
              hydrate api "line_items" lineItemProps rest := by
            simp [hydrate, List.filterMap_cons, ht]
          rw [hrest] at h ⊢
          simpa [lineItemsGo, ht] using ih h items total
      | some i =>
          by_cases hs : (api.record "line_items" i lineItemProps).status = 200
          · have hrest : hydrate api "line_items" lineItemProps (oid :: rest) =
                HRecord.mk i (api.record "line_items" i lineItemProps).props ::
                  hydrate api "line_items" lineItemProps rest := by
              simp [hydrate, List.filterMap_cons, ht, hs]
            rw [hrest] at h
            have hrec := h _ (List.mem_cons_self _ _)
            have hrest' := fun r hr => h r (List.mem_cons_of_mem _ hr)
            rw [hrest]
            cases ha : propGet (api.record "line_items" i lineItemProps).props
                "amount" with
            | none =>
                have step : lineItemsGo api items total (oid :: rest) =
                    lineItemsGo api
                      (items ++ [HRecord.mk i
                        (api.record "line_items" i lineItemProps).props])
                      total rest := by
                  simp [lineItemsGo, ht, hs, ha]
                rw [step, ih hrest']
                have hav : amountVal (HRecord.mk i
                    (api.record "line_items" i lineItemProps).props) = 0 := by
                  simp [amountVal, ha]
                simp [hav, List.append_assoc]
            | some a =>
                by_cases hae : a = ""
                · have step : lineItemsGo api items total (oid :: rest) =
                      lineItemsGo api
                        (items ++ [HRecord.mk i
                          (api.record "line_items" i lineItemProps).props])
                        total rest := by
                    simp [lineItemsGo, ht, hs, ha, hae]
                  rw [step, ih hrest']
                  have hav : amountVal (HRecord.mk i
                      (api.record "line_items" i lineItemProps).props) = 0 := by
                    simp [amountVal, ha, hae]
                  simp [hav, List.append_assoc]
                · have hps : (parseFloat a).isSome := by
                    have h2 := hrec
                    simp only [amountOk, ha] at h2
                    simpa [hae] using h2
                  obtain ⟨q, hq⟩ := Option.isSome_iff_exists.mp hps
                  have step : lineItemsGo api items total (oid :: rest) =
                      lineItemsGo api
                        (items ++ [HRecord.mk i
                          (api.record "line_items" i lineItemProps).props])
                        (total + q) rest := by
                    simp [lineItemsGo, ht, hs, ha, hae, hq]
                  rw [step, ih hrest']
                  have hav : amountVal (HRecord.mk i
                      (api.record "line_items" i lineItemProps).props) = q := by
                    simp [amountVal, ha, hae, hq]
                  simp [hav, List.append_assoc, add_assoc]
          · have hrest : hydrate api "line_items" lineItemProps (oid :: rest) =
                hydrate api "line_items" lineItemProps rest := by
              simp [hydrate, List.filterMap_cons, ht, hs]
            rw [hrest] at h ⊢
            simpa [lineItemsGo, ht, hs] using ih h items total

theorem lineItemsScan_ok (api : Api) (results : List AssocItem)
    (h : ∀ r ∈ hydrate api "line_items" lineItemProps results, amountOk r) :
    lineItemsScan api results =
      .ok (hydrate api "line_items" lineItemProps results,
        ((hydrate api "line_items" lineItemProps results).map amountVal).sum) := by
  have := lineItemsGo_ok api results h [] 0
  simpa [lineItemsScan] using this

/-! ### Concrete API instances used to exercise the tools -/

/-- A CRM in which every endpoint answers 404 with an empty body; the
instances below override individual endpoints. -/
def apiBase : Api :=
  { assocPage := fun _ _ _ _ => ⟨404, "", [], none⟩
  , record := fun _ _ _ => ⟨404, []⟩
  , dealWithHistory := fun _ => ⟨404, "", [], none⟩
  , propertyMeta := fun _ => ⟨404, []⟩ }

/-- Deal `D` has one linked line item `L1` whose `amount` is the
non-numeric string `"abc"`. -/
def apiBadAmount : Api :=
  { apiBase with
    assocPage := fun t i c a =>
      if t = "deals" ∧ i = "D" ∧ c = "line_items" ∧ a = none then
        ⟨200, "", [some "L1"], none⟩
      else ⟨404, "", [], none⟩
  , record := fun t i _ =>
      if t = "line_items" ∧ i = "L1" then ⟨200, [("amount", "abc")]⟩
      else ⟨404, []⟩ }

/-- Deal `D` has line items `L1` (amount `"10.5"`) and `L2` (no amount). -/
def apiGoodAmounts : Api :=
  { apiBase with
    assocPage := fun t i c a =>
      if t = "deals" ∧ i = "D" ∧ c = "line_items" ∧ a = none then
        ⟨200, "", [some "L1", some "L2"], none⟩
      else ⟨404, "", [], none⟩
  , record := fun t i _ =>
      if t = "line_items" ∧ i = "L1" then
        ⟨200, [("name", "widget"), ("amount", "10.5")]⟩
      else if t = "line_items" ∧ i = "L2" then ⟨200, [("name", "gadget")]⟩
      else ⟨404, []⟩ }

/-- Deal `D1` has linked note IDs `N1`, `N2`; hydrating `N1` fails with a
500 while `N2` hydrates fine. -/
def apiNotesScenario : Api :=
  { apiBase with
    assocPage := fun t i c a =>
      if t = "deals" ∧ i = "D1" ∧ c = "notes" ∧ a = none then
        ⟨200, "", [some "N1", some "N2"], none⟩
      else ⟨404, "", [], none⟩
  , record := fun t i _ =>
      if t = "notes" ∧ i = "N2" then
        ⟨200, [("hs_note_body", "second note"),
          ("hs_timestamp", "2024-02-02T00:00:00Z")]⟩
      else ⟨500, []⟩ }

/-! ### C1 -/

/-- C1 (counterexample): deal `D` has one hydrated line item whose
`amount` property is the non-numeric string `"abc"`; the claim says such a
record contributes zero and the call does not return an error, but the
call returns the `float()` conversion error. -/
theorem C1_counterexample :
    get_deal_line_items apiBadAmount "D" =
      .error "could not convert string to float: abc" ∧
    hydrate apiBadAmount "line_items" lineItemProps
      (apiBadAmount.assocPage "deals" "D" "line_items" none).results =
      [⟨"L1", [("amount", "abc")]⟩] ∧
    parseFloat "abc" = none :=
  ⟨by decide, by decide, by decide⟩

/-- C1 (amended): when the association call succeeds with a non-empty
result list and every hydrated record's present, non-empty `amount` parses
as a number, the call returns the hydrated records with `total_amount`
equal to the sum of their amount contributions, where a missing or empty
`amount` contributes zero; a present non-numeric `amount`, however, makes
the whole call return an error (see the counterexample). -/
theorem C1_amended (api : Api) (d : String)
    (h200 : (api.assocPage "deals" d "line_items" none).status = 200)
    (hne : (api.assocPage "deals" d "line_items" none).results ≠ [])
    (hok : ∀ r ∈ hydrate api "line_items" lineItemProps
        (api.assocPage "deals" d "line_items" none).results, amountOk r) :
    get_deal_line_items api d =
      .ok (hydrate api "line_items" lineItemProps
            (api.assocPage "deals" d "line_items" none).results)
        (hydrate api "line_items" lineItemProps
          (api.assocPage "deals" d "line_items" none).results).length
        ((hydrate api "line_items" lineItemProps
          (api.assocPage "deals" d "line_items" none).results).map
            amountVal).sum := by
  have hscan := lineItemsScan_ok api
    (api.assocPage "deals" d "line_items" none).results hok
  simp [get_deal_line_items, h200, hne, hscan]

/-- C1 (witness): the amended theorem applied to a deal with line items
`L1` (amount `"10.5"`) and `L2` (no amount): the call succeeds and
`total_amount` is `10.5`. -/
theorem C1_amended_witness :
    get_deal_line_items apiGoodAmounts "D" =
      .ok (hydrate apiGoodAmounts "line_items" lineItemProps
            (apiGoodAmounts.assocPage "deals" "D" "line_items" none).results)
        (hydrate apiGoodAmounts "line_items" lineItemProps
          (apiGoodAmounts.assocPage "deals" "D" "line_items" none).results).length
        ((hydrate apiGoodAmounts "line_items" lineItemProps
          (apiGoodAmounts.assocPage "deals" "D" "line_items" none).results).map
            amountVal).sum ∧
    get_deal_line_items apiGoodAmounts "D" =
      .ok [⟨"L1", [("name", "widget"), ("amount", "10.5")]⟩,
           ⟨"L2", [("name", "gadget")]⟩] 2 (21 / 2) :=
  ⟨C1_amended apiGoodAmounts "D" (by decide) (by decide) (by decide),
   by with_unfolding_all rfl⟩

/-! ### C2 -/

/-- C2: when the association call for a deal's notes succeeds with a
non-empty result list, the call returns `ok` (never an error caused by a
per-record failure), the returned count equals the number of hydrated
records, which equals the number of supplied IDs whose per-record fetch
succeeded, and is at most the number of supplied IDs. -/
theorem C2_best_effort_batch (api : Api) (d : String)
    (h200 : (api.assocPage "deals" d "notes" none).status = 200)
    (hne : (api.assocPage "deals" d "notes" none).results ≠ []) :
    ∃ notes : List HRecord,
      get_deal_notes api d = .ok notes notes.length ∧
      notes.length = (api.assocPage "deals" d "notes" none).results.countP
          (fetchSucceeded api "notes" noteProps) ∧
      notes.length ≤ (api.assocPage "deals" d "notes" none).results.length := by
  refine ⟨sortByTsDesc (hydrate api "notes" noteProps
      (api.assocPage "deals" d "notes" none).results), ?_, ?_, ?_⟩
  · simp [get_deal_notes, h200, hne]
  · have h1 : (sortByTsDesc (hydrate api "notes" noteProps
        (api.assocPage "deals" d "notes" none).results)).length =
        (hydrate api "notes" noteProps
          (api.assocPage "deals" d "notes" none).results).length :=
      length_sortLe _ _
    rw [h1, hydrate_length_eq]
  · have h1 : (sortByTsDesc (hydrate api "notes" noteProps
        (api.assocPage "deals" d "notes" none).results)).length =
        (hydrate api "notes" noteProps
          (api.assocPage "deals" d "notes" none).results).length :=
      length_sortLe _ _
    rw [h1]
    exact hydrate_length_le _ _ _ _

/-- C2 (witness): the scenario from the claim — deal `D1` with linked note
IDs `[N1, N2]` where hydrating `N1` fails with a 500: the result is the
single note `N2` with count 1 and no error. -/
theorem C2_best_effort_batch_witness :
    (∃ notes : List HRecord,
      get_deal_notes apiNotesScenario "D1" = .ok notes notes.length ∧
      notes.length = (apiNotesScenario.assocPage "deals" "D1" "notes"
          none).results.countP
          (fetchSucceeded apiNotesScenario "notes" noteProps) ∧
      notes.length ≤
        (apiNotesScenario.assocPage "deals" "D1" "notes" none).results.length) ∧
    get_deal_notes apiNotesScenario "D1" =
      .ok [⟨"N2", [("hs_note_body", "second note"),
        ("hs_timestamp", "2024-02-02T00:00:00Z")]⟩] 1 :=
  ⟨C2_best_effort_batch apiNotesScenario "D1" (by decide) (by decide),
   by decide⟩

/-- A CRM with no deal `D404`: the association endpoint answers 404. -/
def apiMissingDeal : Api :=
  { apiBase with
    assocPage := fun _ _ _ _ => ⟨404, "deal does not exist", [], none⟩ }

/-- A CRM whose association endpoint fails with a 500. -/
def apiAssoc500 : Api :=
  { apiBase with
    assocPage := fun _ _ _ _ => ⟨500, "internal server error", [], none⟩ }

/-! ### C3 -/

/-- C3 (counterexample): for a missing root deal the tool still issues the
association-listing call as its very first and only request — no
root-record verification happens — and the missing root is reported with
the same generic error constructor and message shape that any non-404
association failure gets, not a distinct NotFound result. -/
theorem C3_counterexample :
    get_deal_contacts_requests apiMissingDeal "D404" =
      [Request.assocList "deals" "D404" "contacts" none] ∧
    get_deal_contacts apiMissingDeal "D404" =
      .error "Failed to get associations: deal does not exist" ∧
    get_deal_contacts apiAssoc500 "D500" =
      .error "Failed to get associations: internal server error" :=
  ⟨by decide, by decide, by decide⟩

/-- C3 (amended): the enrichment performs no root-existence check: its
first request is always the association-listing call, and any non-2xx
answer to that call — a missing root included — is returned as the single
generic "Failed to get associations" error. -/
theorem C3_amended (api : Api) (d : String) :
    (get_deal_contacts_requests api d).head? =
      some (Request.assocList "deals" d "contacts" none) ∧
    ((api.assocPage "deals" d "contacts" none).status ≠ 200 →
      get_deal_contacts api d =
        .error ("Failed to get associations: " ++
          (api.assocPage "deals" d "contacts" none).text)) := by
  refine ⟨rfl, fun h => ?_⟩
  simp [get_deal_contacts, h]

/-- C3 (witness): the amended theorem applied to the missing-deal CRM. -/
theorem C3_amended_witness :
    get_deal_contacts apiMissingDeal "D404" =
      .error ("Failed to get associations: " ++
        (apiMissingDeal.assocPage "deals" "D404" "contacts" none).text) :=
  (C3_amended apiMissingDeal "D404").2 (by decide)

/-- Deal `D` has notes `A` (timestamp `"1000"`) and `B` (timestamp
`"999"`) and emails `E1` (timestamp `"2"`) and `E2` (timestamp `"10"`):
all four timestamps parse as numbers, with A later than B and E2 later
than E1. -/
def apiTsDemo : Api :=
  { apiBase with
    assocPage := fun t i c a =>
      if t = "deals" ∧ i = "D" ∧ c = "notes" ∧ a = none then
        ⟨200, "", [some "A", some "B"], none⟩
      else if t = "deals" ∧ i = "D" ∧ c = "emails" ∧ a = none then
        ⟨200, "", [some "E1", some "E2"], none⟩
      else ⟨404, "", [], none⟩
  , record := fun t i _ =>
      if t = "notes" ∧ i = "A" then ⟨200, [("hs_timestamp", "1000")]⟩
      else if t = "notes" ∧ i = "B" then ⟨200, [("hs_timestamp", "999")]⟩
      else if t = "emails" ∧ i = "E1" then ⟨200, [("hs_timestamp", "2")]⟩
      else if t = "emails" ∧ i = "E2" then ⟨200, [("hs_timestamp", "10")]⟩
      else ⟨404, []⟩ }

/-! ### C4 -/

/-- C4 (counterexample): notes `A` and `B` both carry timestamps that
parse as numbers, with A's parsed timestamp (1000) greater than B's
(999); the claim's descending order on parsed timestamps would put A
first, but the code sorts the raw strings, and `"999"` sorts above
`"1000"` lexicographically, so A comes second. -/
theorem C4_counterexample :
    get_deal_notes apiTsDemo "D" =
      .ok [⟨"B", [("hs_timestamp", "999")]⟩,
           ⟨"A", [("hs_timestamp", "1000")]⟩] 2 ∧
    parseFloat "1000" = some 1000 ∧
    parseFloat "999" = some 999 ∧
    (999 : ℚ) < 1000 :=
  ⟨by decide, by with_unfolding_all rfl, by with_unfolding_all rfl,
   by norm_num⟩

/-- C4 (amended): notes and emails are returned as a permutation of the
hydrated records sorted descending by the RAW `hs_timestamp` string in
lexicographic order (a missing timestamp becomes the empty string, which
sorts last); no timestamp parsing happens, so the claimed ordering by
parsed timestamp, and the claim that only unparseable entries sort last,
do not hold in general. -/
theorem C4_amended (api : Api) (d : String)
    (hn200 : (api.assocPage "deals" d "notes" none).status = 200)
    (hnne : (api.assocPage "deals" d "notes" none).results ≠ [])
    (he200 : (api.assocPage "deals" d "emails" none).status = 200)
    (hene : (api.assocPage "deals" d "emails" none).results ≠ []) :
    (∃ notes : List HRecord,
      get_deal_notes api d = .ok notes notes.length ∧
      notes.Perm (hydrate api "notes" noteProps
        (api.assocPage "deals" d "notes" none).results) ∧
      notes.Pairwise (fun a b => pyLe (tsKey b) (tsKey a) = true)) ∧
    (∃ emails : List HRecord,
      get_deal_emails api d = .ok emails emails.length ∧
      emails.Perm (hydrate api "emails" emailProps
        (api.assocPage "deals" d "emails" none).results) ∧
      emails.Pairwise (fun a b => pyLe (tsKey b) (tsKey a) = true)) := by
  constructor
  · refine ⟨sortByTsDesc (hydrate api "notes" noteProps
        (api.assocPage "deals" d "notes" none).results), ?_, ?_, ?_⟩
    · simp [get_deal_notes, hn200, hnne]
    · exact (sortByTsDesc_spec _).1
    · exact (sortByTsDesc_spec _).2
  · refine ⟨sortByTsDesc (hydrate api "emails" emailProps
        (api.assocPage "deals" d "emails" none).results), ?_, ?_, ?_⟩
    · simp [get_deal_emails, he200, hene]
    · exact (sortByTsDesc_spec _).1
    · exact (sortByTsDesc_spec _).2

/-- C4 (witness): the amended theorem applied to the numeric-timestamp
CRM, together with the concrete outputs: both lists are permutations of
the hydrated records in raw-string descending order. -/
theorem C4_amended_witness :
    ((∃ notes : List HRecord,
      get_deal_notes apiTsDemo "D" = .ok notes notes.length ∧
      notes.Perm (hydrate apiTsDemo "notes" noteProps
        (apiTsDemo.assocPage "deals" "D" "notes" none).results) ∧
      notes.Pairwise (fun a b => pyLe (tsKey b) (tsKey a) = true)) ∧
    (∃ emails : List HRecord,
      get_deal_emails apiTsDemo "D" = .ok emails emails.length ∧
      emails.Perm (hydrate apiTsDemo "emails" emailProps
        (apiTsDemo.assocPage "deals" "D" "emails" none).results) ∧
      emails.Pairwise (fun a b => pyLe (tsKey b) (tsKey a) = true))) ∧
    get_deal_emails apiTsDemo "D" =
      .ok [⟨"E1", [("hs_timestamp", "2")]⟩,
           ⟨"E2", [("hs_timestamp", "10")]⟩] 2 :=
  ⟨C4_amended apiTsDemo "D" (by decide) (by decide) (by decide) (by decide),
   by decide⟩

/-- Deal `D` with a two-entry `dealstage` history delivered newest
first. -/
def apiStageHist : Api :=
  { apiBase with
    dealWithHistory := fun i =>
      if i = "D" then
        ⟨200, "",
          [("dealname", "Big Deal"), ("dealstage", "s2"), ("pipeline", "p1")],
          some [⟨"s2", "2024-02-01T00:00:00Z", "CRM_UI"⟩,
                ⟨"s1", "2024-01-01T00:00:00Z", "API"⟩]⟩
      else ⟨404, "", [], none⟩ }

/-! ### C5 -/

/-- C5: when the root-deal fetch succeeds, the stage-history result is
built from that single fetch: it contains exactly one `StageEvent` per
entry of the attached `dealstage` history (a permutation of their direct
translation), sorted ascending by timestamp, and `total_stage_changes`
equals the number of `StageEvent` entries. -/
theorem C5_stage_history (api : Api) (d : String)
    (h200 : (api.dealWithHistory d).status = 200) :
    ∃ events : List StageEvent,
      get_deal_stage_history api d =
        .ok d (propGet (api.dealWithHistory d).props "dealname")
          (propGet (api.dealWithHistory d).props "dealstage")
          (propGet (api.dealWithHistory d).props "pipeline")
          events events.length ∧
      events.Perm (((api.dealWithHistory d).dealstageHistory.getD []).map
        mkStageEvent) ∧
      events.Pairwise (fun a b => pyLe a.timestamp b.timestamp = true) := by
  cases hd : (api.dealWithHistory d).dealstageHistory with
  | none =>
      refine ⟨[], ?_, ?_, ?_⟩
      · simp [get_deal_stage_history, h200, hd, sortByEventTsAsc, sortLe]
      · simp [hd]
      · simp
  | some entries =>
      refine ⟨sortByEventTsAsc (entries.map mkStageEvent), ?_, ?_, ?_⟩
      · simp [get_deal_stage_history, h200, hd]
      · simpa [hd] using (sortByEventTsAsc_spec (entries.map mkStageEvent)).1
      · exact (sortByEventTsAsc_spec _).2

/-- C5 (witness): the theorem applied to a deal whose history arrives
newest first, together with the concrete output: two events, oldest
first, `total_stage_changes = 2`. -/
theorem C5_stage_history_witness :
    (∃ events : List StageEvent,
      get_deal_stage_history apiStageHist "D" =
        .ok "D" (propGet (apiStageHist.dealWithHistory "D").props "dealname")
          (propGet (apiStageHist.dealWithHistory "D").props "dealstage")
          (propGet (apiStageHist.dealWithHistory "D").props "pipeline")
          events events.length ∧
      events.Perm (((apiStageHist.dealWithHistory "D").dealstageHistory.getD
        []).map mkStageEvent) ∧
      events.Pairwise (fun a b => pyLe a.timestamp b.timestamp = true)) ∧
    get_deal_stage_history apiStageHist "D" =
      .ok "D" (some "Big Deal") (some "s2") (some "p1")
        [⟨"s1", "2024-01-01T00:00:00Z", "API"⟩,
         ⟨"s2", "2024-02-01T00:00:00Z", "CRM_UI"⟩] 2 :=
  ⟨C5_stage_history apiStageHist "D" (by decide), by decide⟩

/-- Deal `D2` exists with no linked contacts or companies: the
association endpoints answer 200 with empty result lists. -/
def apiNoAssoc : Api :=
  { apiBase with
    assocPage := fun t i c a =>
      if t = "deals" ∧ i = "D2" ∧ a = none ∧ (c = "contacts" ∨ c = "companies")
      then ⟨200, "", [], none⟩
      else ⟨404, "", [], none⟩ }

/-! ### C6 -/

/-- C6: when the association listing succeeds but yields zero linked IDs,
the contacts and companies tools return their shaped empty result — an
empty list with the category's human-readable "no related records"
message — and not an error. -/
theorem C6_empty_assoc (api : Api) (d : String)
    (hc200 : (api.assocPage "deals" d "contacts" none).status = 200)
    (hcres : (api.assocPage "deals" d "contacts" none).results = [])
    (hk200 : (api.assocPage "deals" d "companies" none).status = 200)
    (hkres : (api.assocPage "deals" d "companies" none).results = []) :
    get_deal_contacts api d =
      .empty "No contacts associated with this deal" ∧
    get_deal_companies api d =
      .empty "No companies associated with this deal" := by
  constructor
  · simp [get_deal_contacts, hc200, hcres]
  · simp [get_deal_companies, hk200, hkres]

/-- C6 (witness): deal `D2` with no linked contacts or companies yields
the two shaped empty results from the claim. -/
theorem C6_empty_assoc_witness :
    get_deal_contacts apiNoAssoc "D2" =
      .empty "No contacts associated with this deal" ∧
    get_deal_companies apiNoAssoc "D2" =
      .empty "No companies associated with this deal" :=
  C6_empty_assoc apiNoAssoc "D2" (by decide) (by decide) (by decide)
    (by decide)

/-- The pipeline-options fetch fails with a 500 while the dealstage
options fetch succeeds with two options. -/
def apiLabels : Api :=
  { apiBase with
    propertyMeta := fun p =>
      if p = "dealstage" then
        ⟨200, [("241882253", "Purchase Order Sent"),
               ("241882256", "Closed Won")]⟩
      else ⟨500, []⟩ }

/-- The mirror of `apiLabels`: the dealstage-options fetch fails with a
500 while the pipeline-options fetch succeeds with one option. -/
def apiLabelsSym : Api :=
  { apiBase with
    propertyMeta := fun p =>
      if p = "pipeline" then
        ⟨200, [("141575188", "Linq One")]⟩
      else ⟨500, []⟩ }

/-! ### C7 -/

/-- C7: the two halves of `get_pipelines` are independent in both
orientations: when the pipeline-options fetch returns a non-2xx status and
the stage-options fetch succeeds, the result is an empty pipelines map
next to the populated stages map; when instead the stage-options fetch
fails and the pipeline-options fetch succeeds, the result is the populated
pipelines map next to an empty stages map — and in either case the result
is `ok`, never a top-level error. -/
theorem C7_label_maps (api : Api) :
    (((api.propertyMeta "pipeline").status ≠ 200 ∧
      (api.propertyMeta "dealstage").status = 200) →
      get_pipelines api =
        .ok { pipelines := []
            , stages := buildLabelMap (api.propertyMeta "dealstage").options }) ∧
    (((api.propertyMeta "dealstage").status ≠ 200 ∧
      (api.propertyMeta "pipeline").status = 200) →
      get_pipelines api =
        .ok { pipelines := buildLabelMap (api.propertyMeta "pipeline").options
            , stages := [] }) := by
  constructor
  · rintro ⟨hp, hs⟩
    simp [get_pipelines, hp, hs]
  · rintro ⟨hs, hp⟩
    simp [get_pipelines, hp, hs]

/-- C7 (witness): both orientations at concrete CRMs — the pipeline fetch
failing (500) with the stage fetch succeeding gives an empty pipelines map
and a populated stages map, and the stage fetch failing with the pipeline
fetch succeeding gives the mirror image; neither is an error. -/
theorem C7_label_maps_witness :
    get_pipelines apiLabels =
      .ok { pipelines := []
          , stages := buildLabelMap (apiLabels.propertyMeta "dealstage").options } ∧
    get_pipelines apiLabelsSym =
      .ok { pipelines := buildLabelMap (apiLabelsSym.propertyMeta "pipeline").options
          , stages := [] } ∧
    get_pipelines apiLabels =
      .ok { pipelines := []
          , stages := [("241882253", "Purchase Order Sent"),
                       ("241882256", "Closed Won")] } ∧
    get_pipelines apiLabelsSym =
      .ok { pipelines := [("141575188", "Linq One")], stages := [] } :=
  ⟨(C7_label_maps apiLabels).1 ⟨by decide, by decide⟩,
   (C7_label_maps apiLabelsSym).2 ⟨by decide, by decide⟩,
   by decide, by decide⟩

/-- Deal `D` whose contact links span two API pages: the first page
returns `C1` and advertises cursor `page2`, under which the API would
serve `C2`. -/
def apiPaged : Api :=
  { apiBase with
    assocPage := fun t i c a =>
      if t = "deals" ∧ i = "D" ∧ c = "contacts" then
        match a with
        | none => ⟨200, "", [some "C1"], some "page2"⟩
        | some cur =>
            if cur = "page2" then ⟨200, "", [some "C2"], none⟩
            else ⟨404, "", [], none⟩
      else ⟨404, "", [], none⟩
  , record := fun t i _ =>
      if t = "contacts" ∧ i = "C1" then ⟨200, [("firstname", "Cee")]⟩
      else if t = "contacts" ∧ i = "C2" then ⟨200, [("firstname", "Dee")]⟩
      else ⟨404, []⟩ }

/-- Whether a request is an association-listing call. -/
def isAssocReq : Request → Bool
  | .assocList _ _ _ _ => true
  | .getRecord _ _ => false

/-! ### C8 -/

/-- C8 (counterexample): the first association page advertises a further
page (`nextAfter = page2`) holding contact `C2`, yet the tool issues
exactly one association-listing request (with no cursor) and returns only
the first page's contact `C1` — IDs past the first page are never
accumulated, contradicting the claimed paging loop. -/
theorem C8_counterexample :
    (apiPaged.assocPage "deals" "D" "contacts" none).nextAfter =
      some "page2" ∧
    (apiPaged.assocPage "deals" "D" "contacts" (some "page2")).results =
      [some "C2"] ∧
    get_deal_contacts apiPaged "D" =
      .ok [⟨"C1", [("firstname", "Cee")]⟩] 1 ∧
    get_deal_contacts_requests apiPaged "D" =
      [Request.assocList "deals" "D" "contacts" none,
       Request.getRecord "contacts" "C1"] :=
  ⟨by decide, by decide, by decide, by decide⟩

/-- C8 (amended): the lister issues exactly one association-listing
request, always without a page cursor, and on success the result is the
hydration of that single first page's IDs; no paging and no caller cap
exist. -/
theorem C8_amended (api : Api) (d : String) :
    (get_deal_contacts_requests api d).countP isAssocReq = 1 ∧
    ((api.assocPage "deals" d "contacts" none).status = 200 →
      (api.assocPage "deals" d "contacts" none).results ≠ [] →
      get_deal_contacts api d =
        .ok (hydrate api "contacts" contactProps
              (api.assocPage "deals" d "contacts" none).results)
          (hydrate api "contacts" contactProps
            (api.assocPage "deals" d "contacts" none).results).length) := by
  constructor
  · have htail : ∀ pg : List AssocItem,
        (pg.filterMap (fun oid => (truthyId oid).map
          (fun i => Request.getRecord "contacts" i))).countP isAssocReq = 0 := by
      intro pg
      rw [List.countP_eq_zero]
      intro r hr
      rcases List.mem_filterMap.mp hr with ⟨oid, _, hsome⟩
      rcases Option.map_eq_some'.mp hsome with ⟨i, _, rfl⟩
      simp [isAssocReq]
    by_cases h : (api.assocPage "deals" d "contacts" none).status = 200
    · simp [get_deal_contacts_requests, List.countP_cons, h, htail, isAssocReq]
    · simp [get_deal_contacts_requests, List.countP_cons, h, isAssocReq]
  · intro h1 h2
    simp [get_deal_contacts, h1, h2]

/-- C8 (witness): the amended theorem applied to the paged CRM: one
association request, and the result hydrates only the first page. -/
theorem C8_amended_witness :
    (get_deal_contacts_requests apiPaged "D").countP isAssocReq = 1 ∧
    get_deal_contacts apiPaged "D" =
      .ok (hydrate apiPaged "contacts" contactProps
            (apiPaged.assocPage "deals" "D" "contacts" none).results)
        (hydrate apiPaged "contacts" contactProps
          (apiPaged.assocPage "deals" "D" "contacts" none).results).length :=
  ⟨(C8_amended apiPaged "D").1,
   (C8_amended apiPaged "D").2 (by decide) (by decide)⟩

/-- A CRM that answers every association call with 401 unauthorized, as
it would when the bearer token is the literal `"Bearer None"`. -/
def apiUnauthorized : Api :=
  { apiBase with
    assocPage := fun _ _ _ _ => ⟨401, "401 unauthorized", [], none⟩ }

/-! ### C9 -/

/-- C9 (counterexample): with the token missing, the headers carry the
literal `"Bearer None"` — there is no credential check — and the tool
still issues the association network request, reporting the failure as
the generic association error rather than any Unconfigured error reported
before a network call. -/
theorem C9_counterexample :
    get_headers none =
      [("Authorization", "Bearer None"), ("Content-Type", "application/json")] ∧
    get_deal_contacts_requests apiUnauthorized "D" =
      [Request.assocList "deals" "D" "contacts" none] ∧
    get_deal_contacts apiUnauthorized "D" =
      .error "Failed to get associations: 401 unauthorized" :=
  ⟨by decide, by decide, by decide⟩

/-- C9 (amended): no credential check exists: a missing token is
interpolated into the Authorization header as the text `"None"`, and
every invocation's first action is the association network request, for
any CRM behaviour whatsoever. -/
theorem C9_amended (api : Api) (d : String) :
    get_headers none =
      [("Authorization", "Bearer None"), ("Content-Type", "application/json")] ∧
    (get_deal_contacts_requests api d).head? =
      some (Request.assocList "deals" d "contacts" none) :=
  ⟨rfl, rfl⟩

/-- Python truthiness of `str(x).strip()` for an optional string tool
argument: false for `None` and for whitespace-only strings. -/
def givenStr : Option String → Bool
  | none => false
  | some s => pyStrip s ≠ ""

/-! ### C10 -/

/-- C10: an `EQ` filter on `pipeline` / `dealstage` / `hubspot_owner_id`
is in the built filters exactly when the argument is non-None and
non-blank after stripping; the `GTE` / `LTE` amount filters are present
exactly when `min_amount` / `max_amount` are non-None; and the payload
carries a `filterGroups` key exactly when at least one filter was
built. -/
theorem C10_filter_deals (pipeline dealstage hubspot_owner_id : Option String)
    (min_amount max_amount : Option ℚ) (limit : Int) :
    ((filter_deals_filters pipeline dealstage hubspot_owner_id min_amount
        max_amount).any (fun f => f.propertyName = "pipeline") =
      givenStr pipeline) ∧
    ((filter_deals_filters pipeline dealstage hubspot_owner_id min_amount
        max_amount).any (fun f => f.propertyName = "dealstage") =
      givenStr dealstage) ∧
    ((filter_deals_filters pipeline dealstage hubspot_owner_id min_amount
        max_amount).any (fun f => f.propertyName = "hubspot_owner_id") =
      givenStr hubspot_owner_id) ∧
    ((filter_deals_filters pipeline dealstage hubspot_owner_id min_amount
        max_amount).any (fun f =>
          decide (f.propertyName = "amount" ∧ f.operator = "GTE")) =
      min_amount.isSome) ∧
    ((filter_deals_filters pipeline dealstage hubspot_owner_id min_amount
        max_amount).any (fun f =>
          decide (f.propertyName = "amount" ∧ f.operator = "LTE")) =
      max_amount.isSome) ∧
    ((filter_deals_payload pipeline dealstage hubspot_owner_id min_amount
        max_amount limit).filterGroups = none ↔
      filter_deals_filters pipeline dealstage hubspot_owner_id min_amount
        max_amount = []) := by
  rcases pipeline with _ | p <;> rcases dealstage with _ | ds <;>
    rcases hubspot_owner_id with _ | ow <;> rcases min_amount with _ | q1 <;>
    rcases max_amount with _ | q2 <;>
    simp only [filter_deals_filters, filter_deals_payload, givenStr] <;>
    split_ifs <;>
    simp_all

end PokeServer
